import Mathlib

/-!
# Verification of the AI-Resume-Optimizer pipeline core

Shallow embedding of the pipeline / knowledge-cache lifecycle logic of the
repository (files `streamlit_app.py`, `src/resume_crew/crew.py`,
`src/resume_crew/main.py`) together with proofs of the specification claims.

Conventions:
* a document byte buffer is a `List Nat`;
* Python exceptions are modelled with `Except`;
* filesystem / module state is passed explicitly, and operations that can
  fail in the real system (directory removals, file unlinks, module
  deletions) are parameterised by failure oracles so that "for every
  filesystem state" quantifies over every possible failure pattern;
* the content hash (`hashlib.md5`) is modelled as the identity on byte
  buffers, i.e. as an injective fingerprint.
-/

deriving instance DecidableEq for Except

namespace ResumeOptimizer

/-- A document byte buffer (the uploaded PDF bytes). -/
abbrev Doc := List Nat

/-- `fingerprint d` models `hashlib.md5(d)`: the content hash scoping the
knowledge index.  Modelled as injective (ideal hash). -/
def fingerprint (d : Doc) : Doc := d

/-- The five pipeline stages, in the declaration order of the `@task`
methods of `ResumeCrew` in `src/resume_crew/crew.py`. -/
inductive StageName
  | jobAnalysis
  | resumeOptimization
  | companyResearch
  | resumeGeneration
  | reportGeneration
deriving DecidableEq, Repr

/-- One task descriptor of `ResumeCrew`: the stage it implements, the
`output_file` it writes and the `output_pydantic` model it validates with
(`none` for the free-form markdown tasks). -/
structure TaskDef where
  name : StageName
  outputFile : String
  pydanticModel : Option String
deriving DecidableEq, Repr

/-- The task list of `ResumeCrew` (crew.py, `@task` methods lines 113-149),
in declaration order — the order `Process.sequential` executes them in. -/
def resumeCrewTasks : List TaskDef :=
  [ ⟨.jobAnalysis, "output/job_analysis.json", some "JobRequirements"⟩,
    ⟨.resumeOptimization, "output/resume_optimization.json", some "ResumeOptimization"⟩,
    ⟨.companyResearch, "output/company_research.json", some "CompanyResearch"⟩,
    ⟨.resumeGeneration, "output/optimized_resume.md", none⟩,
    ⟨.reportGeneration, "output/final_report.md", none⟩ ]

/-- The output filenames `streamlit_app.py:main` (lines 199-200) checks for
before displaying results. -/
def expectedOutputFiles : List String :=
  [ "job_analysis.json", "resume_optimization.json", "company_research.json",
    "optimized_resume.md", "final_report.md" ]

/-- Errors a run can terminate with.  `emptyDocument` is the
`ValueError("Uploaded file is empty")` of streamlit_app.py line 410 (the
spec's `EmptyDocumentError`); `indexConflict` is the ChromaDB
duplicate/upsert error handled at lines 476-485 (the spec's
`IndexConflictError`); `attributeError` is Python's `AttributeError` from
dereferencing an unset `self.resume_pdf`. -/
inductive RunError
  | emptyDocument
  | saveFailure
  | fileNotFound
  | initFailure
  | indexConflict
  | attributeError
  | stageFailure (s : StageName)
deriving DecidableEq, Repr

/-- Observable events of one `optimize_resume` run, in the order the code
performs them. -/
inductive Event
  | teardown                 -- cleanup_crewai_cache() call
  | saveResume               -- writing knowledge/uploaded_resume_*.pdf
  | cleanupPrev              -- cleanup_previous_files()
  | cleanupOutput            -- cleanup_output_files()
  | crewInit                 -- ResumeCrew(resume_path=...)
  | ingest                   -- knowledge ingestion at crew().kickoff()
  | stageRun (s : StageName) -- one sequential task execution
deriving DecidableEq, Repr

/-! ## Knowledge index model

The knowledge index is the ChromaDB state (on-disk cache directories plus
lingering in-memory client data).  At fingerprint granularity it is the
list of document fingerprints whose ingested chunks are observable to
stage queries.  `cleanup_crewai_cache` tears the locations down one by one,
each removal wrapped in `try/except ...: pass`, so a removal may fail and
leave its entries observable; the `survives` oracle records which entries
persist through a given teardown. -/

structure IndexState where
  entries : List Doc
deriving DecidableEq, Repr

/-- Effect of `cleanup_crewai_cache` at fingerprint granularity: every
entry is removed best-effort; `survives e = true` models the case where
every removal attempt covering `e`'s cache location failed (each is
guarded by `try/except: pass`, streamlit_app.py lines 299-338) or `e`
lives in ChromaDB client memory the cleanup could not reach (acknowledged
by the code at lines 480-482). -/
def cleanupIndex (survives : Doc → Bool) (s : IndexState) : IndexState :=
  ⟨s.entries.filter survives⟩

/-- Knowledge ingestion at `crew().kickoff()`: ingesting a document whose
fingerprint is already present trips ChromaDB's uniqueness constraint (the
duplicate/upsert error branch, streamlit_app.py line 477); otherwise the
document's chunks are added under its fingerprint. -/
def ingest (d : Doc) (s : IndexState) : Except RunError IndexState :=
  if fingerprint d ∈ s.entries then .error .indexConflict
  else .ok ⟨s.entries ++ [fingerprint d]⟩

/-- One index rebuild as `optimize_resume` performs it: best-effort
teardown (`cleanup_crewai_cache`) followed by ingestion of the new
document. -/
def rebuild (d : Doc) (survives : Doc → Bool) (s : IndexState) :
    Except RunError IndexState :=
  ingest d (cleanupIndex survives s)

/-! ## Sequential stage execution

`ResumeCrew.crew` builds a `Crew` with `process=Process.sequential` over
`resumeCrewTasks`.  The kickoff semantics live in the external `crewai`
library, not in this repository.  Modelled from the spec: stages run
strictly sequentially in list order; each successful task writes its
`output_file`; the first fatal stage failure halts the run and surfaces
that stage's name; no later stage executes (spec §4.5, §7). -/

def runStages (outcome : StageName → Bool) (arts : List String) :
    List TaskDef → List Event × List String × Except RunError Unit
  | [] => ([], arts, .ok ())
  | t :: rest =>
      if outcome t.name then
        let r := runStages outcome (arts ++ [t.outputFile]) rest
        (Event.stageRun t.name :: r.1, r.2)
      else
        ([Event.stageRun t.name], arts, .error (.stageFailure t.name))

/-- The first stage of a task list that `outcome` fails. -/
def firstFailing (outcome : StageName → Bool) : List TaskDef → Option StageName
  | [] => none
  | t :: rest => if outcome t.name then firstFailing outcome rest else some t.name

/-! ## The `optimize_resume` run (streamlit_app.py lines 364-535)

The run is modelled as a function from the uploaded bytes, an environment
of failure oracles and the pre-run state to a trace of events, the post-run
state and the surfaced result.  The outer `except Exception` handler
(line 522) displays exactly the one exception that aborted the run; the
surfaced result is that exception (`.error e`) or `.ok ()`. -/

structure RunEnv where
  /-- which index entries survive the best-effort teardown -/
  survives : Doc → Bool
  /-- whether saving the uploaded file raises (lines 406-428, re-raised) -/
  saveFails : Bool
  /-- per-file unlink failure in `cleanup_output_files` (`except OSError: pass`) -/
  outputUnlinkFails : String → Bool
  /-- whether `ResumeCrew(resume_path=...)` raises (lines 446-456, re-raised) -/
  initFails : Bool
  /-- per-stage success of the sequential kickoff -/
  outcome : StageName → Bool

structure RunState where
  index : IndexState
  /-- output artifact files currently present (the artifact store) -/
  artifacts : List String
  /-- `st.session_state.processed_resume_hash` -/
  prevHash : Option Doc
deriving DecidableEq, Repr

structure RunOutcome where
  trace : List Event
  state : RunState
  result : Except RunError Unit
deriving DecidableEq, Repr

/-- The `output_file` paths of the five tasks. -/
def outputFilePaths : List String := resumeCrewTasks.map (fun t => t.outputFile)

/-- `cleanup_output_files` (streamlit_app.py lines 345-362): removes each of
the five named output files if present, each unlink wrapped in
`try/except OSError: pass` (`fails` records which unlinks fail). -/
def cleanup_output_files (fails : String → Bool) (arts : List String) :
    List String :=
  arts.filter (fun a => !(outputFilePaths.contains a) || fails a)

/-- `optimize_resume` (streamlit_app.py lines 364-535), in source order:
1. `cleanup_crewai_cache()` — teardown of the knowledge index (line 386);
2. hash of the uploaded bytes, session-state update (lines 394-402);
3. empty-upload check: `raise ValueError("Uploaded file is empty")`
   (lines 408-410) — surfaced before saving, before crew creation and
   before any stage;
4. save of the uploaded file (re-raising on failure);
5. `cleanup_previous_files` / `cleanup_output_files` (lines 432-433);
6. `ResumeCrew(resume_path=...)` construction (re-raising on failure);
7. `crew().kickoff(...)`: knowledge ingestion, then the five stages
   sequentially. -/
def optimize_resume (bytes : Doc) (env : RunEnv) (st : RunState) : RunOutcome :=
  let st1 : RunState :=
    { st with index := cleanupIndex env.survives st.index,
              prevHash := some (fingerprint bytes) }
  if bytes.isEmpty then
    ⟨[.teardown], st1, .error .emptyDocument⟩
  else if env.saveFails then
    ⟨[.teardown], st1, .error .saveFailure⟩
  else
    let st2 : RunState :=
      { st1 with artifacts := cleanup_output_files env.outputUnlinkFails st1.artifacts }
    if env.initFails then
      ⟨[.teardown, .saveResume, .cleanupPrev, .cleanupOutput, .crewInit], st2,
        .error .initFailure⟩
    else
      match ingest bytes st2.index with
      | .error e =>
          ⟨[.teardown, .saveResume, .cleanupPrev, .cleanupOutput, .crewInit, .ingest],
            st2, .error e⟩
      | .ok idx2 =>
          let r := runStages env.outcome st2.artifacts resumeCrewTasks
          ⟨[.teardown, .saveResume, .cleanupPrev, .cleanupOutput, .crewInit, .ingest]
              ++ r.1,
            { st2 with index := idx2, artifacts := r.2.1 }, r.2.2⟩

/-! ## `cleanup_previous_files` (streamlit_app.py lines 234-247) -/

/-- A file on disk: the directory it lives in and its bare name. -/
structure FSFile where
  dir : String
  name : String
deriving DecidableEq, Repr

/-- The filename filter of `cleanup_previous_files`:
`filename.startswith('uploaded_resume_') and filename.endswith('.pdf')`. -/
def isUploadedResumeName (n : String) : Bool :=
  n.startsWith "uploaded_resume_" && n.endsWith ".pdf"

/-- Python truthiness of the `exclude_file` argument
(`if exclude_file and filename == exclude_file`). -/
def truthyName : Option String → Bool
  | none => false
  | some s => !(s == "")

/-- Whether `cleanup_previous_files exclude` unlinks `f`: `f` must live in
`knowledge/`, match the uploaded-resume pattern, not be the excluded file,
and its `os.unlink` must not raise (`except OSError: pass`). -/
def removedByCleanup (exclude : Option String) (unlinkFails : String → Bool)
    (f : FSFile) : Bool :=
  f.dir == "knowledge" && isUploadedResumeName f.name &&
    !(truthyName exclude && (some f.name == exclude)) && !(unlinkFails f.name)

/-- `cleanup_previous_files` (lines 234-247): a no-op when the `knowledge`
directory does not exist, otherwise best-effort unlink of the matching,
non-excluded files. -/
def cleanup_previous_files (exclude : Option String)
    (unlinkFails : String → Bool) (knowledgeDirExists : Bool)
    (fs : List FSFile) : List FSFile :=
  if knowledgeDirExists then
    fs.filter (fun f => !(removedByCleanup exclude unlinkFails f))
  else fs

/-! ## `cleanup_crewai_cache` (streamlit_app.py lines 249-343)

Modelled with explicit Python exceptions: every primitive that can fail
returns `Except PyExc`; `try/except:` blocks are mirrored literally, in
particular the *selective* `except OSError` handlers at lines 304 and 324
(only `OSError` is caught there; any other exception would propagate). -/

inductive PyExc
  | osError
  | keyError
  | valueError
  | fileNotFoundError
  | attributeError
  | otherError
deriving DecidableEq, Repr

structure SysState where
  dirs : List String
  files : List String
  modules : List String
  /-- lingering `chromadb._clients` handles -/
  chromaClients : Nat

structure CleanupOracle where
  rmtreeFails : String → Bool
  walkRemoveFails : String → Bool
  rmtreeRetryFails : String → Bool
  removeDbFails : String → Bool
  delModuleFails : String → Bool
  chromadbImportFails : Bool

/-- The cache-directory list of lines 257-269. -/
def cacheDirs : List String :=
  [".crewai", "__pycache__", ".chroma", "chroma_db", "chromadb",
   "src/__pycache__", "src/resume_crew/__pycache__", ".streamlit/cache",
   ".cache", "knowledge/.chroma", "output/.chroma"]

/-- The module-name keywords of lines 286-288. -/
def moduleKeywords : List String := ["chroma", "crewai", "knowledge", "vector"]

/-- Python `pat in s` substring test. -/
def strContains (s pat : String) : Bool := (s.splitOn pat).length != 1

/-- File suffixes of the glob patterns at lines 272-277. -/
def dbSuffixes : List String :=
  [".db", ".sqlite", ".sqlite3", ".parquet", ".pkl", ".pickle"]

def baseName (p : String) : String := (p.splitOn "/").getLastD ""

/-- Whether a path matches one of the database glob patterns
(`**/*.db`, ..., `**/chroma-*`). -/
def isDbFile (p : String) : Bool :=
  dbSuffixes.any (fun suf => p.endsWith suf) || (baseName p).startsWith "chroma-"

def underDir (d p : String) : Bool := p.startsWith (d ++ "/")

def pathExists (d : String) (s : SysState) : Bool := s.dirs.contains d

/-- `shutil.rmtree`: removes the directory, everything under it; raises
`OSError` on failure (the only exception class rmtree raises for
environment errors). -/
def rmtreeOp (fails : String → Bool) (d : String) (s : SysState) :
    Except PyExc SysState :=
  if fails d then .error .osError
  else .ok { s with dirs := s.dirs.filter (fun x => !(x == d || underDir d x)),
                    files := s.files.filter (fun p => !(underDir d p)) }

/-- `os.remove` / `os.unlink`: raises `OSError` on failure. -/
def removeFileOp (fails : String → Bool) (p : String) (s : SysState) :
    Except PyExc SysState :=
  if fails p then .error .osError
  else .ok { s with files := s.files.filter (fun x => !(x == p)) }

/-- `del sys.modules[name]`: raises `KeyError` if absent/raced. -/
def delModuleOp (fails : String → Bool) (m : String) (s : SysState) :
    Except PyExc SysState :=
  if fails m then .error .keyError
  else .ok { s with modules := s.modules.filter (fun x => !(x == m)) }

/-- The module-clearing loop (lines 290-296); each deletion wrapped in a
bare `try/except: pass`. -/
def clearModules (o : CleanupOracle) :
    List String → SysState × List String → SysState × List String
  | [], acc => acc
  | m :: rest, (s, cleaned) =>
      match delModuleOp o.delModuleFails m s with
      | .ok s' => clearModules o rest (s', cleaned ++ ["module:" ++ m])
      | .error _ => clearModules o rest (s, cleaned)

/-- The forced-deletion fallback (lines 305-316): walk the directory,
remove each file individually (each attempt in a bare try), retry
`rmtree`; the whole block is wrapped in a bare `try/except: pass`. -/
def forcedRemove (o : CleanupOracle) (d : String) (s : SysState)
    (cleaned : List String) : SysState × List String :=
  let s1 : SysState :=
    { s with files := s.files.filter (fun p => !(underDir d p && !(o.walkRemoveFails p))) }
  match rmtreeOp o.rmtreeRetryFails d s1 with
  | .ok s2 => (s2, cleaned ++ [d ++ "(forced)"])
  | .error _ => (s1, cleaned)

/-- One iteration of the cache-directory loop (lines 299-316).  Note the
selective handler: `except OSError as e` — an exception of any other class
raised by the first `rmtree` would propagate out of the whole function. -/
def removeDirStep (o : CleanupOracle) (d : String) (s : SysState)
    (cleaned : List String) : Except PyExc (SysState × List String) :=
  if pathExists d s then
    match rmtreeOp o.rmtreeFails d s with
    | .ok s' => .ok (s', cleaned ++ [d])
    | .error .osError => .ok (forcedRemove o d s cleaned)
    | .error e => .error e
  else .ok (s, cleaned)

def removeDirs (o : CleanupOracle) :
    List String → SysState × List String → Except PyExc (SysState × List String)
  | [], acc => .ok acc
  | d :: rest, (s, cleaned) =>
      match removeDirStep o d s cleaned with
      | .ok acc' => removeDirs o rest acc'
      | .error e => .error e

/-- One iteration of the database-file loop (lines 318-325): skip paths
containing `venv`/`.venv`; `except OSError: pass` around `os.remove`. -/
def removeDbStep (o : CleanupOracle) (p : String) (s : SysState)
    (cleaned : List String) : Except PyExc (SysState × List String) :=
  if !(strContains p "venv") && !(strContains p ".venv") then
    match removeFileOp o.removeDbFails p s with
    | .ok s' => .ok (s', cleaned ++ [p])
    | .error .osError => .ok (s, cleaned)
    | .error e => .error e
  else .ok (s, cleaned)

def removeDbFiles (o : CleanupOracle) :
    List String → SysState × List String → Except PyExc (SysState × List String)
  | [], acc => .ok acc
  | p :: rest, (s, cleaned) =>
      match removeDbStep o p s cleaned with
      | .ok acc' => removeDbFiles o rest acc'
      | .error e => .error e

/-- The `chromadb._clients.clear()` attempt (lines 332-338), wrapped in a
bare `try/except: pass` (the import may fail, the attribute may be
absent). -/
def clearChromaClients (o : CleanupOracle) (s : SysState) : SysState :=
  if o.chromadbImportFails then s else { s with chromaClients := 0 }

/-- `cleanup_crewai_cache` (lines 249-343), in source order: glob the
database files, clear matching modules, remove the cache directories,
remove the database files, `gc.collect()` (no modelled effect), clear
lingering ChromaDB clients, return the count of cleaned locations. -/
def cleanup_crewai_cache (o : CleanupOracle) (s : SysState) :
    Except PyExc (SysState × Nat) := do
  let dbFiles := s.files.filter isDbFile
  let modulesToClear := s.modules.filter
    (fun n => moduleKeywords.any (fun k => strContains n.toLower k))
  let acc1 := clearModules o modulesToClear (s, [])
  let acc2 ← removeDirs o cacheDirs acc1
  let acc3 ← removeDbFiles o dbFiles acc2
  let s' := clearChromaClients o acc3.1
  return (s', acc3.2.length)

def exceptIsOk : Except ε α → Bool
  | .ok _ => true
  | .error _ => false

/-! ## `ResumeCrew` construction and the CLI entry point
(src/resume_crew/crew.py lines 20-41 and 151-159,
src/resume_crew/main.py lines 9-29) -/

def pathSep : String := "/"

/-- Python `os.path.sep in resume_path`. -/
def hasPathSep (p : String) : Bool := (p.splitOn pathSep).length != 1

/-- The attribute state a `ResumeCrew.__init__` call leaves behind:
`resume_pdf` is only assigned inside the `if resume_path:` branch. -/
structure CrewState where
  resume_pdf : Option String
deriving DecidableEq, Repr

/-- The resolved path `__init__` checks for existence:
`os.path.join('knowledge', resume_path) if not os.path.sep in resume_path
else resume_path` (crew.py line 28). -/
def resolvedResumePath (p : String) : String :=
  if hasPathSep p then p else "knowledge" ++ pathSep ++ p

/-- `ResumeCrew.__init__(resume_path)` (crew.py lines 20-41): with a falsy
`resume_path` (None or empty string) the body is skipped and `resume_pdf`
stays unset; otherwise the resolved file must exist
(`raise FileNotFoundError` if not) and `resume_pdf` is set to a
`PDFKnowledgeSource` over the path. -/
def ResumeCrew.init (resume_path : Option String) (fileExists : String → Bool) :
    Except PyExc CrewState :=
  match resume_path with
  | none => .ok ⟨none⟩
  | some p =>
      if p == "" then .ok ⟨none⟩
      else if fileExists (resolvedResumePath p) then .ok ⟨some p⟩
      else .error .fileNotFoundError

/-- The `Crew` object: the sequential task list and the knowledge source. -/
structure CrewObj where
  tasks : List TaskDef
  knowledgeSource : String
deriving DecidableEq, Repr

/-- `ResumeCrew.crew()` (crew.py lines 151-159): builds the `Crew` with
`knowledge_sources=[self.resume_pdf]` — dereferencing `self.resume_pdf`
raises `AttributeError` when `__init__` never assigned it. -/
def ResumeCrew.crew (s : CrewState) : Except PyExc CrewObj :=
  match s.resume_pdf with
  | none => .error .attributeError
  | some src => .ok ⟨resumeCrewTasks, src⟩

def defaultJobUrl : String :=
  "https://www.mckinsey.com/careers/search-jobs/jobs/associate-15178"

def defaultCompany : String := "Mckinsey & Co."

/-- The `inputs` dict of `main.run` with its Python-falsy defaulting. -/
def mkInputs (job_url company_name : Option String) : String × String :=
  ( match job_url with
    | none => defaultJobUrl
    | some u => if u == "" then defaultJobUrl else u,
    match company_name with
    | none => defaultCompany
    | some c => if c == "" then defaultCompany else c )

/-- `run` (main.py lines 9-29): build the inputs, construct `ResumeCrew`,
then `crew().kickoff(inputs=inputs)`.  Returns the kickoff trace and the
written artifacts, or the Python exception that aborted the call. -/
def run (job_url company_name resume_path : Option String)
    (fileExists : String → Bool) (outcome : StageName → Bool) :
    List Event × Except PyExc (List String) :=
  let _inputs := mkInputs job_url company_name
  match ResumeCrew.init resume_path fileExists with
  | .error e => ([], .error e)
  | .ok st =>
      match ResumeCrew.crew st with
      | .error e => ([], .error e)
      | .ok c =>
          let r := runStages outcome [] c.tasks
          (Event.ingest :: r.1,
            match r.2.2 with
            | .ok () => .ok r.2.1
            | .error _ => .error .otherError)

/-! ## Content-suggestion shapes
(streamlit_app.py `display_resume_optimization`, lines 721-760) -/

/-- A `content_suggestions` element as read back from
`output/resume_optimization.json`: a JSON object (association list of
string fields) or a bare string. -/
inductive SuggJson
  | dict (fields : List (String × String))
  | str (s : String)
deriving DecidableEq, Repr

def lookupField (fields : List (String × String)) (k : String) : Option String :=
  List.lookup k fields

/-- Python `'k' in suggestion`. -/
def hasField (fields : List (String × String)) (k : String) : Bool :=
  (lookupField fields k).isSome

/-- The per-suggestion dispatch of `display_resume_optimization`
(lines 731-760), returning the rendered lines: the current
`{section, suggestion [, original_text]}` branch, the legacy
`{section, before, after, rationale}` branch, the generic-dict fallback
(every non-`section` field; the cosmetic `key.title()` casing is elided),
and the bare-string case. -/
def display_suggestion (i : Nat) (s : SuggJson) : List String :=
  match s with
  | .str s => ["Suggestion " ++ toString i, s]
  | .dict fields =>
      if hasField fields "suggestion" then
        ("Suggestion " ++ toString i ++ ": "
            ++ (lookupField fields "section").getD "General Improvement")
          :: (lookupField fields "suggestion").getD ""
          :: (match lookupField fields "original_text" with
              | some t => ["Original Text:", t]
              | none => [])
      else if hasField fields "before" || hasField fields "after" then
        ((lookupField fields "section").getD ("Suggestion " ++ toString i))
          :: ((match lookupField fields "before" with
              | some b => ["Before:", b]
              | none => [])
            ++ (match lookupField fields "after" with
              | some a => ["After:", a]
              | none => [])
            ++ (match lookupField fields "rationale" with
              | some r => ["Why:", r]
              | none => []))
      else
        ("Suggestion " ++ toString i)
          :: (fields.filter (fun kv => !(kv.1 == "section"))).map
              (fun kv => kv.1 ++ ": " ++ kv.2)

/-- The current suggestion shape `{section, suggestion, optional
original_text}` of spec §3 / the first display branch. -/
def isCurrentShape (s : SuggJson) : Bool :=
  match s with
  | .dict fields => hasField fields "section" && hasField fields "suggestion"
  | .str _ => false

/-- The legacy suggestion shape `{section, before, after, rationale}` of
spec §3 / the second display branch. -/
def isLegacyShape (s : SuggJson) : Bool :=
  match s with
  | .dict fields =>
      hasField fields "section" && hasField fields "before" &&
        hasField fields "after" && hasField fields "rationale"
  | .str _ => false

inductive SchemaResult
  | ok (stored : SuggJson)
  | schemaError
deriving DecidableEq, Repr

/-- Modelled from the spec: the `ResumeOptimization` validation of a
`content_suggestions` element.  The pydantic model module
(`src/resume_crew/models.py`, referenced by
`output_pydantic=ResumeOptimization` in crew.py line 126) is not among
the source files; per spec §3/§8 the validation accepts both the current
and the legacy shape without `SchemaError`.  The accepted payload is
stored as-is in `output/resume_optimization.json`: the stored artifact
retains its incoming shape, as evidenced by `display_resume_optimization`,
which reads the stored artifact back and still has to branch on the
legacy `before`/`after` shape (lines 739-750). -/
def validate_content_suggestion (s : SuggJson) : SchemaResult :=
  if isCurrentShape s || isLegacyShape s then .ok s else .schemaError

/-- The stage-event sequence of a fully successful sequential kickoff. -/
def fixedStageOrder : List Event :=
  resumeCrewTasks.map (fun t => Event.stageRun t.name)

end ResumeOptimizer

namespace ResumeOptimizer

/-! # Theorems -/

/-- Characterisation of `runStages` by the span of initially succeeding
tasks: the successfully executed tasks are the longest all-succeeding
prefix; on failure the first failing stage also runs (and fails), nothing
after it. -/
theorem runStages_eq_span (outcome : StageName → Bool) (arts : List String)
    (tasks : List TaskDef) :
    runStages outcome arts tasks =
      let good := tasks.takeWhile (fun t => outcome t.name)
      let bad := tasks.dropWhile (fun t => outcome t.name)
      ( good.map (fun t => Event.stageRun t.name) ++
          (bad.head?.map (fun t => Event.stageRun t.name)).toList,
        arts ++ good.map (fun t => t.outputFile),
        match bad.head? with
        | none => .ok ()
        | some t => .error (.stageFailure t.name) ) := by
  induction tasks generalizing arts with
  | nil => simp [runStages]
  | cons t rest ih =>
      by_cases h : outcome t.name = true
      · simp [runStages, h, ih, List.takeWhile_cons, List.dropWhile_cons]
      · simp at h
        simp [runStages, h, List.takeWhile_cons, List.dropWhile_cons]

/-- The event trace of `runStages` is a prefix of the stage list mapped to
`stageRun` events (so stages execute in list order, no stage out of
order). -/
theorem runStages_events_prefix (outcome : StageName → Bool) :
    ∀ (tasks : List TaskDef) (arts : List String),
      ∃ k, (runStages outcome arts tasks).1 =
        (tasks.map (fun t => Event.stageRun t.name)).take k := by
  intro tasks
  induction tasks with
  | nil => intro arts; exact ⟨0, by simp [runStages]⟩
  | cons t rest ih =>
      intro arts
      by_cases h : outcome t.name = true
      · obtain ⟨k, hk⟩ := ih (arts ++ [t.outputFile])
        exact ⟨k + 1, by simp [runStages, h, hk]⟩
      · simp at h
        exact ⟨1, by simp [runStages, h]⟩

/-- Only `stageRun` events appear in a kickoff trace. -/
theorem runStages_no_teardown (outcome : StageName → Bool)
    (arts : List String) (tasks : List TaskDef) :
    Event.teardown ∉ (runStages outcome arts tasks).1 := by
  obtain ⟨k, hk⟩ := runStages_events_prefix outcome tasks arts
  intro h
  rw [hk] at h
  have h' := List.mem_of_mem_take h
  obtain ⟨t, _, ht⟩ := List.mem_map.mp h'
  cases ht

/-- A stage reported by `firstFailing` indeed fails. -/
theorem firstFailing_false (outcome : StageName → Bool) :
    ∀ (tasks : List TaskDef) (s : StageName),
      firstFailing outcome tasks = some s → outcome s = false := by
  intro tasks
  induction tasks with
  | nil => intro s h; cases h
  | cons t rest ih =>
      intro s h
      by_cases ht : outcome t.name = true
      · exact ih s (by simpa [firstFailing, ht] using h)
      · simp at ht
        simp [firstFailing, ht] at h
        rw [← h]; exact ht

/-- A run whose first failing stage is `s` executes the all-succeeding
prefix, then `s` (which fails), writes only the prefix's artifacts and
surfaces `s`'s failure. -/
theorem runStages_of_firstFailing (outcome : StageName → Bool) :
    ∀ (tasks : List TaskDef) (arts : List String) (s : StageName),
      firstFailing outcome tasks = some s →
      runStages outcome arts tasks =
        ((tasks.takeWhile (fun t => outcome t.name)).map
            (fun t => Event.stageRun t.name) ++ [Event.stageRun s],
          arts ++ (tasks.takeWhile (fun t => outcome t.name)).map
            (fun t => t.outputFile),
          .error (.stageFailure s)) := by
  intro tasks
  induction tasks with
  | nil => intro arts s h; cases h
  | cons t rest ih =>
      intro arts s h
      by_cases ht : outcome t.name = true
      · have h' : firstFailing outcome rest = some s := by
          simpa [firstFailing, ht] using h
        simp [runStages, ht, ih (arts ++ [t.outputFile]) s h',
          List.takeWhile_cons]
      · simp at ht
        simp [firstFailing, ht] at h
        subst h
        simp [runStages, ht, List.takeWhile_cons]

/-- A successful run executes every task in order and writes every task's
artifact. -/
theorem runStages_of_ok (outcome : StageName → Bool) :
    ∀ (tasks : List TaskDef) (arts : List String),
      (runStages outcome arts tasks).2.2 = .ok () →
      (runStages outcome arts tasks).1 =
          tasks.map (fun t => Event.stageRun t.name) ∧
        (runStages outcome arts tasks).2.1 =
          arts ++ tasks.map (fun t => t.outputFile) := by
  intro tasks
  induction tasks with
  | nil => intro arts _; simp [runStages]
  | cons t rest ih =>
      intro arts hok
      by_cases ht : outcome t.name = true
      · have hok' : (runStages outcome (arts ++ [t.outputFile]) rest).2.2 = .ok () := by
          simpa [runStages, ht] using hok
        obtain ⟨h1, h2⟩ := ih (arts ++ [t.outputFile]) hok'
        constructor
        · simp [runStages, ht, h1]
        · simp [runStages, ht, h2]
      · simp at ht
        simp [runStages, ht] at hok


/-- C7: every run executes the pipeline stages strictly sequentially in
the fixed order job-analysis, resume-optimization, company-research,
resume-generation, report-generation — the stage-event trace of any
sequential kickoff over `ResumeCrew`'s task list is a prefix of that fixed
order (hence no stage runs out of order and none in parallel: the trace is
a single sequence), a fully successful run's trace is exactly that order,
and the fixed order spells out the five stages. -/
theorem stages_run_sequentially_in_fixed_order :
    (∀ (outcome : StageName → Bool) (arts : List String),
      ∃ k, (runStages outcome arts resumeCrewTasks).1 = fixedStageOrder.take k) ∧
    (∀ (outcome : StageName → Bool) (arts : List String),
      (runStages outcome arts resumeCrewTasks).2.2 = .ok () →
      (runStages outcome arts resumeCrewTasks).1 = fixedStageOrder) ∧
    fixedStageOrder =
      [.stageRun .jobAnalysis, .stageRun .resumeOptimization,
       .stageRun .companyResearch, .stageRun .resumeGeneration,
       .stageRun .reportGeneration] := by
  refine ⟨fun outcome arts => ?_, fun outcome arts hok => ?_, by decide⟩
  · exact runStages_events_prefix outcome resumeCrewTasks arts
  · exact (runStages_of_ok outcome resumeCrewTasks arts hok).1

/-- Witness for C7: with every stage succeeding, the kickoff runs the five
stages in exactly the fixed order. -/
theorem stages_run_sequentially_in_fixed_order_witness :
    (runStages (fun _ => true) [] resumeCrewTasks).2.2 = .ok () ∧
    (runStages (fun _ => true) [] resumeCrewTasks).1 = fixedStageOrder :=
  ⟨by decide,
    stages_run_sequentially_in_fixed_order.2.1 (fun _ => true) [] (by decide)⟩

/-- C8: every successfully completed run writes exactly the five named
artifacts, one per stage — job_analysis (structured `JobRequirements`),
resume_optimization (structured `ResumeOptimization`), company_research
(structured `CompanyResearch`), optimized_resume (free-form text, no
pydantic model) and final_report (free-form text) — and these are exactly
the filenames the presentation layer looks for. -/
theorem successful_run_writes_five_artifacts :
    (∀ (outcome : StageName → Bool) (arts : List String),
      (runStages outcome arts resumeCrewTasks).2.2 = .ok () →
      (runStages outcome arts resumeCrewTasks).2.1 = arts ++ outputFilePaths) ∧
    resumeCrewTasks.map (fun t => (t.outputFile, t.pydanticModel)) =
      [("output/job_analysis.json", some "JobRequirements"),
       ("output/resume_optimization.json", some "ResumeOptimization"),
       ("output/company_research.json", some "CompanyResearch"),
       ("output/optimized_resume.md", none),
       ("output/final_report.md", none)] ∧
    outputFilePaths = expectedOutputFiles.map (fun f => "output/" ++ f) ∧
    outputFilePaths.length = 5 := by
  refine ⟨fun outcome arts hok => ?_, by decide, by decide, by decide⟩
  exact (runStages_of_ok outcome resumeCrewTasks arts hok).2

/-- Witness for C8: a run with every stage succeeding writes the five
artifact files. -/
theorem successful_run_writes_five_artifacts_witness :
    (runStages (fun _ => true) [] resumeCrewTasks).2.2 = .ok () ∧
    (runStages (fun _ => true) [] resumeCrewTasks).2.1 = [] ++ outputFilePaths :=
  ⟨by decide,
    successful_run_writes_five_artifacts.1 (fun _ => true) [] (by decide)⟩

/-- C5: when some stage fails fatally, the run surfaces exactly one
terminal error naming the failing stage (the `Except` result carries that
single `stageFailure`), only the all-succeeding prefix plus the failing
stage itself appear in the trace (no stage after the failure point
executes), and in particular a job-analysis failure writes no artifact at
all — so none of resume_optimization, company_research, optimized_resume
or final_report is produced. -/
theorem run_halts_on_first_stage_failure :
    ∀ (outcome : StageName → Bool) (arts : List String) (s : StageName),
      firstFailing outcome resumeCrewTasks = some s →
      (runStages outcome arts resumeCrewTasks).2.2 = .error (.stageFailure s) ∧
      outcome s = false ∧
      (runStages outcome arts resumeCrewTasks).1 =
        (resumeCrewTasks.takeWhile (fun t => outcome t.name)).map
          (fun t => Event.stageRun t.name) ++ [Event.stageRun s] ∧
      (outcome .jobAnalysis = false →
        (runStages outcome arts resumeCrewTasks).1 = [Event.stageRun .jobAnalysis] ∧
        (runStages outcome arts resumeCrewTasks).2.1 = arts) := by
  intro outcome arts s h
  have hrun := runStages_of_firstFailing outcome resumeCrewTasks arts s h
  refine ⟨by rw [hrun], firstFailing_false outcome resumeCrewTasks s h,
    by rw [hrun], fun hja => ?_⟩
  have hs : s = .jobAnalysis := by
    simp [resumeCrewTasks, firstFailing, hja] at h
    exact h.symm
  subst hs
  have htw : resumeCrewTasks.takeWhile (fun t => outcome t.name) = [] := by
    simp [resumeCrewTasks, List.takeWhile_cons, hja]
  rw [hrun, htw]
  simp

/-- Witness for C5: with the job-analysis stage failing, the run surfaces
its failure and writes nothing. -/
theorem run_halts_on_first_stage_failure_witness :
    (runStages (fun _ => false) [] resumeCrewTasks).2.2 =
        .error (.stageFailure .jobAnalysis) ∧
    (runStages (fun _ => false) [] resumeCrewTasks).2.1 = [] :=
  ⟨(run_halts_on_first_stage_failure (fun _ => false) [] .jobAnalysis (by decide)).1,
    ((run_halts_on_first_stage_failure (fun _ => false) [] .jobAnalysis
      (by decide)).2.2.2 (by decide)).2⟩

/-- C1 counterexample: rebuilding with `D2 = [2]` immediately after a
rebuild with `D1 = [1]` does NOT always leave the index containing only
D2's fingerprint: when the second teardown's removals all fail (every
removal in `cleanup_crewai_cache` is individually wrapped in
`try/except: pass`, and the code itself acknowledges at
streamlit_app.py lines 480-482 that ChromaDB data can persist in memory
past the cleanup), D1's entry is still observable after the second
rebuild. -/
theorem rebuild_leakage_counterexample :
    ([1] : Doc) ≠ [2] ∧
    rebuild [1] (fun _ => false) ⟨[]⟩ = .ok ⟨[[1]]⟩ ∧
    rebuild [2] (fun _ => true) ⟨[[1]]⟩ = .ok ⟨[[1], [2]]⟩ ∧
    ¬ ([([1] : Doc), [2]] = [fingerprint [2]]) := by
  decide

/-- C1 amended: for distinct documents D1 ≠ D2, rebuilding with D2
immediately after a rebuild with D1 leaves the index containing only D2's
fingerprint **provided the second rebuild's teardown succeeds in removing
every stale entry** (no removal fails); with a failed removal the prior
run's fingerprint can leak (see the counterexample). -/
theorem rebuild_isolates_when_teardown_succeeds :
    ∀ (d1 d2 : Doc) (survives1 : Doc → Bool) (s s1 : IndexState),
      d1 ≠ d2 →
      rebuild d1 survives1 s = .ok s1 →
      rebuild d2 (fun _ => false) s1 = .ok ⟨[fingerprint d2]⟩ := by
  intro d1 d2 survives1 s s1 _ _
  simp [rebuild, cleanupIndex, ingest]

/-- Witness for C1 (amended): after a first rebuild with `[1]`, a second
rebuild with `[2]` whose teardown fully succeeds leaves exactly `[2]`'s
fingerprint. -/
theorem rebuild_isolates_when_teardown_succeeds_witness :
    rebuild [2] (fun _ => false) ⟨[[1]]⟩ = .ok ⟨[[2]]⟩ :=
  rebuild_isolates_when_teardown_succeeds [1] [2] (fun _ => false) ⟨[]⟩ ⟨[[1]]⟩
    (by decide) (by decide)

/-- C2: in every `optimize_resume` run the knowledge-index teardown
(`cleanup_crewai_cache`, line 386) is the very first action — the trace
starts with the teardown event and contains no later one — so any
ingestion (which can only appear later in the trace) is preceded by the
teardown and never the reverse; and the trace is identical whatever the
previously processed document hash was, i.e. a run with bytes equal to the
previous run's bytes still tears down and re-ingests rather than reusing
the prior index (no branch on `processed_resume_hash`). -/
theorem teardown_precedes_ingestion :
    ∀ (bytes : Doc) (env : RunEnv) (st : RunState),
      (∃ rest, (optimize_resume bytes env st).trace = Event.teardown :: rest ∧
        Event.teardown ∉ rest) ∧
      (∀ p q, (optimize_resume bytes env { st with prevHash := p }).trace =
        (optimize_resume bytes env { st with prevHash := q }).trace) := by
  intro bytes env st
  constructor
  · unfold optimize_resume
    by_cases h1 : bytes.isEmpty
    · exact ⟨[], by simp [h1]⟩
    · by_cases h2 : env.saveFails
      · exact ⟨[], by simp [h1, h2]⟩
      · by_cases h3 : env.initFails
        · exact ⟨[.saveResume, .cleanupPrev, .cleanupOutput, .crewInit],
            by simp [h1, h2, h3]⟩
        · rcases hi : ingest bytes (cleanupIndex env.survives st.index) with e | idx2
          · refine ⟨[.saveResume, .cleanupPrev, .cleanupOutput, .crewInit, .ingest], ?_⟩
            simp [h1, h2, h3, cleanup_output_files, hi]
          · refine ⟨[.saveResume, .cleanupPrev, .cleanupOutput, .crewInit, .ingest] ++
              (runStages env.outcome
                (cleanup_output_files env.outputUnlinkFails st.artifacts)
                resumeCrewTasks).1, ?_⟩
            constructor
            · simp [h1, h2, h3, cleanup_output_files, hi]
            · intro hmem
              rcases List.mem_append.mp hmem with hl | hr
              · simp at hl
              · exact runStages_no_teardown env.outcome _ resumeCrewTasks hr
  · intro p q
    rfl

/-- One cache-directory iteration never propagates an exception: the only
failure `shutil.rmtree` raises is an `OSError`, which the handler catches
and answers with the (fully guarded) forced-removal fallback. -/
theorem removeDirStep_isOk (o : CleanupOracle) (d : String) (s : SysState)
    (cleaned : List String) :
    ∃ acc, removeDirStep o d s cleaned = .ok acc := by
  unfold removeDirStep
  cases he : pathExists d s <;> cases hf : o.rmtreeFails d <;>
    simp [he, hf, rmtreeOp]

/-- The cache-directory loop never propagates an exception. -/
theorem removeDirs_isOk (o : CleanupOracle) :
    ∀ (dirs : List String) (acc : SysState × List String),
      ∃ r, removeDirs o dirs acc = .ok r := by
  intro dirs
  induction dirs with
  | nil => intro acc; exact ⟨acc, rfl⟩
  | cons d rest ih =>
      intro acc
      obtain ⟨s, cleaned⟩ := acc
      obtain ⟨acc', hstep⟩ := removeDirStep_isOk o d s cleaned
      obtain ⟨r, hr⟩ := ih acc'
      exact ⟨r, by simp [removeDirs, hstep, hr]⟩

/-- One database-file iteration never propagates an exception
(`os.remove` raises only `OSError`, which the handler catches). -/
theorem removeDbStep_isOk (o : CleanupOracle) (p : String) (s : SysState)
    (cleaned : List String) :
    ∃ acc, removeDbStep o p s cleaned = .ok acc := by
  unfold removeDbStep
  cases hv : (!(strContains p "venv") && !(strContains p ".venv")) <;>
    cases hf : o.removeDbFails p <;> simp [hv, hf, removeFileOp]

/-- The database-file loop never propagates an exception. -/
theorem removeDbFiles_isOk (o : CleanupOracle) :
    ∀ (ps : List String) (acc : SysState × List String),
      ∃ r, removeDbFiles o ps acc = .ok r := by
  intro ps
  induction ps with
  | nil => intro acc; exact ⟨acc, rfl⟩
  | cons p rest ih =>
      intro acc
      obtain ⟨s, cleaned⟩ := acc
      obtain ⟨acc', hstep⟩ := removeDbStep_isOk o p s cleaned
      obtain ⟨r, hr⟩ := ih acc'
      exact ⟨r, by simp [removeDbFiles, hstep, hr]⟩

/-- Witness for C2: a concrete run behaves identically whether or not the
previous run processed the same document hash — no reuse of the prior
index. -/
theorem teardown_precedes_ingestion_witness :
    (optimize_resume [1]
      ⟨fun _ => false, false, fun _ => false, false, fun _ => true⟩
      { (⟨⟨[]⟩, [], none⟩ : RunState) with prevHash := some [1] }).trace =
    (optimize_resume [1]
      ⟨fun _ => false, false, fun _ => false, false, fun _ => true⟩
      { (⟨⟨[]⟩, [], none⟩ : RunState) with prevHash := none }).trace :=
  (teardown_precedes_ingestion [1]
    ⟨fun _ => false, false, fun _ => false, false, fun _ => true⟩
    ⟨⟨[]⟩, [], none⟩).2 (some [1]) none

/-- C3: index teardown is best-effort — for every starting
filesystem/module state and every pattern of removal failures,
`cleanup_crewai_cache` returns normally (missing directories are skipped,
every failing removal is absorbed by its handler, the selective
`except OSError` handlers only ever face `OSError`s), and the run proceeds
to knowledge ingestion regardless of how much of the teardown succeeded
(the ingest event occurs for every teardown-failure pattern). -/
theorem teardown_best_effort :
    (∀ (o : CleanupOracle) (s : SysState),
      exceptIsOk (cleanup_crewai_cache o s) = true) ∧
    (∀ (bytes : Doc) (env : RunEnv) (st : RunState),
      bytes ≠ [] → env.saveFails = false → env.initFails = false →
      Event.ingest ∈ (optimize_resume bytes env st).trace) := by
  constructor
  · intro o s
    obtain ⟨r2, h2⟩ := removeDirs_isOk o cacheDirs
      (clearModules o (s.modules.filter
        (fun n => moduleKeywords.any (fun k => strContains n.toLower k))) (s, []))
    obtain ⟨r3, h3⟩ := removeDbFiles_isOk o (s.files.filter isDbFile) r2
    simp [cleanup_crewai_cache, h2, h3, exceptIsOk, Except.map, bind,
      Except.bind, Functor.map, pure, Except.pure]
  · intro bytes env st hne hsave hinit
    have h1 : bytes.isEmpty = false := by
      cases bytes with
      | nil => exact absurd rfl hne
      | cons b bs => rfl
    unfold optimize_resume
    rcases hi : ingest bytes (cleanupIndex env.survives st.index) with e | idx2 <;>
      simp [h1, hsave, hinit, cleanup_output_files, hi]

/-- Witness for C3: a concrete nonempty upload reaches ingestion. -/
theorem teardown_best_effort_witness :
    ([1] : Doc) ≠ [] ∧
    Event.ingest ∈ (optimize_resume [1]
      ⟨fun _ => true, false, fun _ => false, false, fun _ => true⟩
      ⟨⟨[]⟩, [], none⟩).trace :=
  ⟨by decide, teardown_best_effort.2 [1]
    ⟨fun _ => true, false, fun _ => false, false, fun _ => true⟩
    ⟨⟨[]⟩, [], none⟩ (by decide) rfl rfl⟩

/-- C6: a run whose uploaded document is the empty byte buffer surfaces
the empty-document error (`ValueError("Uploaded file is empty")`, the
spec's `EmptyDocumentError`) as its single terminal error; its trace is
just the initial teardown — no stage executes, no ingestion happens — and
the artifact store is untouched: the run neither writes nor removes any
output artifact (the raise happens before `cleanup_output_files` and
before any stage could write). -/
theorem empty_document_rejected :
    ∀ (env : RunEnv) (st : RunState),
      (optimize_resume [] env st).result = .error .emptyDocument ∧
      (optimize_resume [] env st).trace = [Event.teardown] ∧
      (∀ s, Event.stageRun s ∉ (optimize_resume [] env st).trace) ∧
      Event.ingest ∉ (optimize_resume [] env st).trace ∧
      (optimize_resume [] env st).state.artifacts = st.artifacts := by
  intro env st
  refine ⟨rfl, rfl, ?_, ?_, rfl⟩
  · intro s hmem
    simp [optimize_resume] at hmem
  · intro hmem
    simp [optimize_resume] at hmem

/-- C9: constructing `ResumeCrew` with `resume_path=None` skips the
`if resume_path:` body, leaving `resume_pdf` unset, so the subsequent
`crew()` call fails dereferencing `self.resume_pdf` for
`knowledge_sources`; hence the CLI entry point `run()` without a
resume_path always fails (with that `AttributeError`) before any stage
executes — empty trace, no artifact; and constructing `ResumeCrew` with a
non-empty `resume_path` whose resolved file does not exist raises
`FileNotFoundError` in the constructor. -/
theorem resume_path_none_fails_before_stages :
    (∀ fileExists : String → Bool,
      ResumeCrew.init none fileExists = .ok ⟨none⟩) ∧
    ResumeCrew.crew ⟨none⟩ = .error .attributeError ∧
    (∀ (ju cn : Option String) (fileExists : String → Bool)
      (outcome : StageName → Bool),
      run ju cn none fileExists outcome = ([], .error .attributeError)) ∧
    (∀ (p : String) (fileExists : String → Bool), p ≠ "" →
      fileExists (resolvedResumePath p) = false →
      ResumeCrew.init (some p) fileExists = .error .fileNotFoundError) := by
  refine ⟨fun _ => rfl, rfl, fun _ _ _ _ => rfl, fun p fe hp hex => ?_⟩
  have hpb : (p == "") = false := by
    cases h : p == ""
    · rfl
    · exact absurd (by simpa using h) hp
  simp [ResumeCrew.init, hpb, hex]

/-- Witness for C9: a missing resolved file makes the constructor raise
`FileNotFoundError`. -/
theorem resume_path_none_fails_before_stages_witness :
    ResumeCrew.init (some "missing.pdf") (fun _ => false) =
      .error .fileNotFoundError :=
  resume_path_none_fails_before_stages.2.2.2 "missing.pdf" (fun _ => false)
    (by decide) rfl

/-- C10: for every filesystem state, exclude argument and pattern of
unlink failures, `cleanup_previous_files` removes only files of the
`knowledge` directory whose names match `uploaded_resume_*.pdf`, never
removes the file named by `exclude_file`, and leaves every other file —
non-matching names in `knowledge` and everything outside `knowledge` —
in place. -/
theorem cleanup_previous_files_frame :
    ∀ (exclude : Option String) (unlinkFails : String → Bool) (kde : Bool)
      (fs : List FSFile) (f : FSFile),
      (f ∈ fs → f ∉ cleanup_previous_files exclude unlinkFails kde fs →
        f.dir = "knowledge" ∧ isUploadedResumeName f.name = true) ∧
      (exclude = some f.name → f ∈ fs →
        f ∈ cleanup_previous_files exclude unlinkFails kde fs) ∧
      (f ∈ fs → ¬(f.dir = "knowledge" ∧ isUploadedResumeName f.name = true) →
        f ∈ cleanup_previous_files exclude unlinkFails kde fs) := by
  intro exclude unlinkFails kde fs f
  cases kde with
  | false =>
      simp only [cleanup_previous_files, Bool.false_eq_true, if_false]
      exact ⟨fun hin hout => absurd hin hout, fun _ hin => hin, fun hin _ => hin⟩
  | true =>
      simp only [cleanup_previous_files, if_true]
      refine ⟨fun hin hout => ?_, fun hex hin => ?_, fun hin hother => ?_⟩
      · have hrem : removedByCleanup exclude unlinkFails f = true := by
          by_contra h
          exact hout (List.mem_filter.mpr ⟨hin, by simp [Bool.eq_false_iff.mpr h]⟩)
        simp only [removedByCleanup, Bool.and_eq_true, beq_iff_eq] at hrem
        exact ⟨hrem.1.1.1, hrem.1.1.2⟩
      · subst hex
        refine List.mem_filter.mpr ⟨hin, ?_⟩
        by_cases hn : f.name = ""
        · have hm : isUploadedResumeName f.name = false := by
            rw [hn]; decide
          simp [removedByCleanup, hm]
        · have hnb : (f.name == "") = false := by
            cases h : f.name == ""
            · rfl
            · exact absurd (by simpa using h) hn
          simp [removedByCleanup, truthyName, hnb]
      · refine List.mem_filter.mpr ⟨hin, ?_⟩
        cases hr : removedByCleanup exclude unlinkFails f
        · rfl
        · simp only [removedByCleanup, Bool.and_eq_true, beq_iff_eq] at hr
          exact absurd ⟨hr.1.1.1, hr.1.1.2⟩ hother

/-- Witness for C10: with an exclude file given, the excluded upload and a
file outside `knowledge` both survive the cleanup. -/
theorem cleanup_previous_files_frame_witness :
    (⟨"knowledge", "uploaded_resume_1_a.pdf"⟩ : FSFile) ∈
      cleanup_previous_files (some "uploaded_resume_1_a.pdf") (fun _ => false)
        true [⟨"knowledge", "uploaded_resume_1_a.pdf"⟩,
          ⟨"knowledge", "uploaded_resume_2_b.pdf"⟩] ∧
    (⟨"output", "final_report.md"⟩ : FSFile) ∈
      cleanup_previous_files (some "uploaded_resume_1_a.pdf") (fun _ => false)
        true [⟨"output", "final_report.md"⟩] :=
  ⟨(cleanup_previous_files_frame _ _ _ _ _).2.1 rfl (by decide),
    (cleanup_previous_files_frame _ _ _ _ _).2.2 (by decide) (by decide)⟩

/-- C4 counterexample: validation accepts both content-suggestion shapes,
but it does NOT normalise them into one canonical internal representation
before storage — a legacy element is stored still in legacy shape and a
current element in current shape, so the stored representations of the two
accepted shapes differ (which is exactly why
`display_resume_optimization` still has to branch on the legacy
`before`/`after` shape when reading the stored artifact back,
streamlit_app.py lines 739-750). -/
theorem content_suggestion_not_normalized :
    validate_content_suggestion (.dict [("section", "Experience"),
        ("before", "Managed team"), ("after", "Led a team of 8"),
        ("rationale", "Quantify impact")]) =
      .ok (.dict [("section", "Experience"), ("before", "Managed team"),
        ("after", "Led a team of 8"), ("rationale", "Quantify impact")]) ∧
    validate_content_suggestion (.dict [("section", "Experience"),
        ("suggestion", "Quantify your impact")]) =
      .ok (.dict [("section", "Experience"),
        ("suggestion", "Quantify your impact")]) ∧
    isLegacyShape (.dict [("section", "Experience"),
        ("before", "Managed team"), ("after", "Led a team of 8"),
        ("rationale", "Quantify impact")]) = true ∧
    isCurrentShape (.dict [("section", "Experience"),
        ("before", "Managed team"), ("after", "Led a team of 8"),
        ("rationale", "Quantify impact")]) = false ∧
    isCurrentShape (.dict [("section", "Experience"),
        ("suggestion", "Quantify your impact")]) = true := by
  decide

/-- C4 amended: stage-output validation accepts both the
`{section, suggestion, optional original_text}` shape and the legacy
`{section, before, after, rationale}` shape of a content-suggestions
element, never raising `SchemaError` for either; the stored artifact
retains the incoming shape, and the two shapes are reconciled at display
time, where `display_resume_optimization` renders either shape (its
dispatch always produces output). -/
theorem both_suggestion_shapes_accepted :
    ∀ s : SuggJson, (isCurrentShape s = true ∨ isLegacyShape s = true) →
      validate_content_suggestion s = .ok s ∧
      ∀ i, display_suggestion i s ≠ [] := by
  intro s hs
  constructor
  · rcases hs with h | h <;> simp [validate_content_suggestion, h]
  · intro i
    cases s with
    | str t => simp [display_suggestion]
    | dict fields =>
        by_cases h1 : hasField fields "suggestion" = true
        · simp [display_suggestion, h1]
        · simp at h1
          by_cases h2 : (hasField fields "before" || hasField fields "after") = true
          · simp [display_suggestion, h1, h2]
          · simp at h2
            simp [display_suggestion, h1, h2]

/-- Witness for C4 (amended): a concrete current-shape element validates
to itself and displays. -/
theorem both_suggestion_shapes_accepted_witness :
    validate_content_suggestion (.dict [("section", "Skills"),
        ("suggestion", "Add Python")]) =
      .ok (.dict [("section", "Skills"), ("suggestion", "Add Python")]) ∧
    display_suggestion 1 (.dict [("section", "Skills"),
        ("suggestion", "Add Python")]) ≠ [] :=
  ⟨(both_suggestion_shapes_accepted _ (Or.inl (by decide))).1,
    (both_suggestion_shapes_accepted _ (Or.inl (by decide))).2 1⟩

/-- Witness for C6: a concrete empty-upload run on a non-trivial prior
state surfaces the empty-document error and leaves the artifact store as
it was. -/
theorem empty_document_rejected_witness :
    (optimize_resume []
      ⟨fun _ => true, false, fun _ => false, false, fun _ => true⟩
      ⟨⟨[[1]]⟩, ["output/final_report.md"], none⟩).result =
        .error .emptyDocument ∧
    (optimize_resume []
      ⟨fun _ => true, false, fun _ => false, false, fun _ => true⟩
      ⟨⟨[[1]]⟩, ["output/final_report.md"], none⟩).state.artifacts =
        ["output/final_report.md"] :=
  ⟨(empty_document_rejected
      ⟨fun _ => true, false, fun _ => false, false, fun _ => true⟩
      ⟨⟨[[1]]⟩, ["output/final_report.md"], none⟩).1,
    (empty_document_rejected
      ⟨fun _ => true, false, fun _ => false, false, fun _ => true⟩
      ⟨⟨[[1]]⟩, ["output/final_report.md"], none⟩).2.2.2.2⟩

end ResumeOptimizer
